import Mathlib

/-!
Shallow embedding of the Go logging package in src/log.go (package log,
module github.com/edony-ink/log).

Machine integers: logrus.Level is an unsigned integer enumeration
(Panic=0, Fatal=1, Error=2, Warn=3, Info=4, Debug=5, Trace=6); we model
it as Nat, which is faithful since the code only compares levels and
never overflows.

External collaborators (the logrus engine, the rotating file writer,
the OS clock, the runtime caller resolver and fmt.Sprintf) are modelled
at their call boundary: time renderings arrive as pre-rendered strings
in the log entry, caller metadata and formatted messages arrive as
string arguments, and each logrus sink is represented by its configured
level together with the write it performs (gated exactly as
logrus.Logger.Log gates: the sink writes when its own level is at least
the method's level) and its control effect (Panic panics after the
enabled write, Fatal exits unconditionally after logging).
-/

/-- logrus severity level, numerically: Panic=0 ... Debug=5 (Trace=6 exists
in logrus but is not re-exported by the package). -/
abbrev Level := Nat

/-- logrus.PanicLevel. -/
def PanicLevel : Level := 0

/-- logrus.FatalLevel. -/
def FatalLevel : Level := 1

/-- logrus.ErrorLevel. -/
def ErrorLevel : Level := 2

/-- logrus.WarnLevel. -/
def WarnLevel : Level := 3

/-- logrus.InfoLevel. -/
def InfoLevel : Level := 4

/-- logrus.DebugLevel. -/
def DebugLevel : Level := 5

/-- logrus Level.String via MarshalText: note WarnLevel renders as
"warning", and an unmapped value renders as "unknown". -/
def logrusLevelString : Level → String
  | 0 => "panic"
  | 1 => "fatal"
  | 2 => "error"
  | 3 => "warning"
  | 4 => "info"
  | 5 => "debug"
  | 6 => "trace"
  | _ => "unknown"

/-- ASCII uppercase of a string, as Go strings.ToUpper acts on the ASCII
level names (structural over the character list so it kernel-reduces). -/
def goToUpper (s : String) : String :=
  String.mk (s.data.map Char.toUpper)

/-- Core of Go strings.Split for a nonempty separator: scans left to
right, cutting at each leftmost non-overlapping occurrence of sep.
The fuel argument only drives structural recursion; every call site
passes the input length, which always suffices because each recursive
step consumes at least one character, so the fuel-exhausted branch is
unreachable. -/
def goSplitFuel (sep : List Char) : Nat → List Char → List Char → List (List Char)
  | _, acc, [] => [acc.reverse]
  | 0, acc, s => [acc.reverse ++ s]
  | fuel + 1, acc, c :: rest =>
    if sep.isPrefixOf (c :: rest) then
      acc.reverse :: goSplitFuel sep fuel [] ((c :: rest).drop sep.length)
    else
      goSplitFuel sep fuel (c :: acc) rest

/-- Go strings.Split(s, sep). For an empty separator Go splits into the
individual characters; the program only ever splits on "T" and " ". -/
def goSplit (s sep : String) : List String :=
  if sep.data.isEmpty then s.data.map (fun c => String.mk [c])
  else (goSplitFuel sep.data s.data.length [] s.data).map String.mk

/-- Go strings.Replace(s, old, new, 1): replace the first occurrence of
old by new (for empty old, Go inserts new before s). -/
def goReplaceOnce (s old new : String) : String :=
  if old = "" then new ++ s
  else
    match goSplit s old with
    | [] => s
    | [x] => x
    | x :: rest => x ++ new ++ String.intercalate old rest

/-- defaultLogFormat constant of src/log.go. -/
def defaultLogFormat : String := "%time%|%lvl%|%func%(%line%)|%msg%\n"

/-- The level-token construction of Formatter.Format lines 99-106:
uppercase the logrus level name and right-pad with spaces while shorter
than 7 characters. -/
def padLevel (s : String) : String :=
  if s.length < 7 then s ++ String.mk (List.replicate (7 - s.length) ' ') else s

/-- Formatter of src/log.go: the full template formatter. TimestampFormat
is the embedded logrus.TextFormatter field consulted at line 83. -/
structure Formatter where
  TimestampFormat : String
  LogFormat : String
  FileName : String
  FuncName : String
  deriving Repr, DecidableEq

/-- A logrus entry as Formatter.Format consumes it. Go renders entry.Time
twice through the external time package; we carry both renderings:
TimeRFC3339 is entry.Time.Format(time.RFC3339) and TimeStamped is
entry.Time.Format of the effective timestamp pattern (the formatter's
pattern, or time.StampMilli when that is empty). Data keeps only the
string-valued fields, since the loop at lines 111-115 substitutes only
values passing the string type assertion; Go map iteration order is
unspecified, here fixed by the list order. -/
structure Entry where
  TimeRFC3339 : String
  TimeStamped : String
  level : Level
  Message : String
  Data : List (String × String)
  deriving Repr, DecidableEq

/-- Formatter.Format of src/log.go lines 77-118. -/
def Formatter.Format (f : Formatter) (e : Entry) : Except String String :=
  let output := if f.LogFormat = "" then defaultLogFormat else f.LogFormat
  let currentDate := goSplit e.TimeRFC3339 "T"
  if currentDate.length ≠ 2 then Except.error "split date format error"
  else
    let currentTime := goSplit e.TimeStamped " "
    if currentTime.length < 1 then Except.error "split time format error"
    else
      let output := goReplaceOnce output "%time%"
        (currentDate.headD "" ++ " " ++ currentTime.getLastD "")
      let output := goReplaceOnce output "%msg%" e.Message
      let level := padLevel (goToUpper (logrusLevelString e.level))
      let output := goReplaceOnce output "%lvl%" level
      let output := goReplaceOnce output "%line%" f.FileName
      let output := goReplaceOnce output "%func%" f.FuncName
      let output := e.Data.foldl
        (fun o kv => goReplaceOnce o ("%" ++ kv.1 ++ "%") kv.2) output
      Except.ok output

/-- STDFormatter.Format of src/log.go lines 128-133: the raw console
formatter, substituting the message into the fixed "%msg%\n" template. -/
def STDFormatterFormat (e : Entry) : Except String String :=
  Except.ok (goReplaceOnce "%msg%\n" "%msg%" e.Message)

/-- Which sink a write went to. -/
inductive SinkId
  | std
  | file
  deriving Repr, DecidableEq, BEq

/-- A write performed by a logrus sink: the sink, the severity of the
logging method that produced it, and the message. -/
structure Write where
  sink : SinkId
  level : Level
  msg : String
  deriving Repr, DecidableEq, BEq

/-- Control effect of a dispatch: normal return; a panic raised by a
sink's Panic method; a process exit raised by a sink's Fatal method; or
the logrus.Fatal process abort of the pre-setup check in Log. -/
inductive Outcome
  | normal
  | panicked
  | exited
  | setupFatal
  deriving Repr, DecidableEq

/-- State of an SWLog instance (struct SWLog of src/log.go, lines
47-60). The two logrus sink pointers are represented by their observable
configuration: STDLoggerLevel and FileLoggerLevel are the sinks' own
severity levels, and STDFormatterIsRaw records whether the console
sink's installed formatter is the raw STDFormatter (true) or the full
Formatter (false); the file sink's formatter is always the full
Formatter. The formatters' per-call FileName/FuncName metadata is passed
as arguments to the dispatch functions rather than stored. -/
structure SWLog where
  STDLoggerLevel : Level
  FileLoggerLevel : Level
  STDFormatterIsRaw : Bool
  IsLog2STD : Bool
  LogFile : String
  LogLevel : Level
  skip : Nat
  isSetup : Bool
  raw : Bool
  deriving Repr, DecidableEq

/-- The zero-value global SWLogger instance as declared at src/log.go
lines 497-500: only isSetup and raw are set, both false; every other
field is the Go zero value. -/
def SWLogger : SWLog :=
  { STDLoggerLevel := 0, FileLoggerLevel := 0, STDFormatterIsRaw := false,
    IsLog2STD := false, LogFile := "", LogLevel := 0, skip := 0,
    isSetup := false, raw := false }

/-- isLevelEnabled of src/log.go lines 232-234. -/
def SWLog.isLevelEnabled (logger : SWLog) (level : Level) : Bool :=
  decide (logger.LogLevel ≥ level)

/-- A logging method of a logrus sink at a given severity: following
logrus.Logger.Log, the sink writes exactly when its own configured level
is at least the method's level. -/
def logrusWrite (sinkLevel : Level) (sink : SinkId) (methodLevel : Level)
    (msg : String) : List Write :=
  if methodLevel ≤ sinkLevel then [⟨sink, methodLevel, msg⟩] else []

/-- The writes of the non-aborting switch branches of Log (error, warn,
info and the default debug branch): console sink first when IsLog2STD,
then the file sink. -/
def SWLog.stdFileWrites (logger : SWLog) (methodLevel : Level) (msg : String) :
    List Write :=
  (if logger.IsLog2STD then logrusWrite logger.STDLoggerLevel .std methodLevel msg
   else [])
    ++ logrusWrite logger.FileLoggerLevel .file methodLevel msg

/-- Log of src/log.go lines 237-280. Returns the writes the sinks
performed and the control effect. Pre-setup calls hit logrus.Fatal and
abort. Inside the switch, logrus Panic panics after its (always enabled,
since every level is at least PanicLevel=0) write and logrus Fatal exits
unconditionally after logging, so with IsLog2STD true the console sink's
Panic/Fatal aborts before the FileLogger call on the following line is
reached. The formatterDecorator call only stores filename/funcname into
the formatters, which the model passes per call. -/
def SWLog.Log (logger : SWLog) (level : Level) (filename funcname msg : String) :
    List Write × Outcome :=
  if logger.isSetup = false then ([], .setupFatal)
  else if logger.isLevelEnabled level then
    match level with
    | 0 =>
      if logger.IsLog2STD then
        (logrusWrite logger.STDLoggerLevel .std 0 msg, .panicked)
      else
        (logrusWrite logger.FileLoggerLevel .file 0 msg, .panicked)
    | 1 =>
      if logger.IsLog2STD then
        (logrusWrite logger.STDLoggerLevel .std 1 msg, .exited)
      else
        (logrusWrite logger.FileLoggerLevel .file 1 msg, .exited)
    | 2 => (logger.stdFileWrites 2 msg, .normal)
    | 3 => (logger.stdFileWrites 3 msg, .normal)
    | 4 => (logger.stdFileWrites 4 msg, .normal)
    | _ => (logger.stdFileWrites 5 msg, .normal)
  else ([], .normal)

/-- Logf of src/log.go lines 283-285: Log of the fmt.Sprintf-rendered
message; the rendering is external, so the formatted message arrives as
a string. -/
def SWLog.Logf (logger : SWLog) (level : Level) (filename funcname formatted : String) :
    List Write × Outcome :=
  logger.Log level filename funcname formatted

/-- Debug of src/log.go lines 288-302: resolves the caller (external,
passed as filename/funcname) and delegates to Log at DebugLevel. -/
def SWLog.Debug (logger : SWLog) (filename funcname msg : String) :
    List Write × Outcome :=
  logger.Log DebugLevel filename funcname msg

/-- Info of src/log.go lines 305-319. -/
def SWLog.Info (logger : SWLog) (filename funcname msg : String) :
    List Write × Outcome :=
  logger.Log InfoLevel filename funcname msg

/-- Warn of src/log.go lines 322-336. -/
def SWLog.Warn (logger : SWLog) (filename funcname msg : String) :
    List Write × Outcome :=
  logger.Log WarnLevel filename funcname msg

/-- Error of src/log.go lines 339-353. -/
def SWLog.Error (logger : SWLog) (filename funcname msg : String) :
    List Write × Outcome :=
  logger.Log ErrorLevel filename funcname msg

/-- Fatal of src/log.go lines 356-370. -/
def SWLog.Fatal (logger : SWLog) (filename funcname msg : String) :
    List Write × Outcome :=
  logger.Log FatalLevel filename funcname msg

/-- Panic of src/log.go lines 373-387. -/
def SWLog.Panic (logger : SWLog) (filename funcname msg : String) :
    List Write × Outcome :=
  logger.Log PanicLevel filename funcname msg

/-- Debugf of src/log.go lines 390-404. -/
def SWLog.Debugf (logger : SWLog) (filename funcname formatted : String) :
    List Write × Outcome :=
  logger.Logf DebugLevel filename funcname formatted

/-- Infof of src/log.go lines 407-420. -/
def SWLog.Infof (logger : SWLog) (filename funcname formatted : String) :
    List Write × Outcome :=
  logger.Logf InfoLevel filename funcname formatted

/-- Warnf of src/log.go lines 423-436. -/
def SWLog.Warnf (logger : SWLog) (filename funcname formatted : String) :
    List Write × Outcome :=
  logger.Logf WarnLevel filename funcname formatted

/-- Errorf of src/log.go lines 439-452. -/
def SWLog.Errorf (logger : SWLog) (filename funcname formatted : String) :
    List Write × Outcome :=
  logger.Logf ErrorLevel filename funcname formatted

/-- Fatalf of src/log.go lines 455-468. -/
def SWLog.Fatalf (logger : SWLog) (filename funcname formatted : String) :
    List Write × Outcome :=
  logger.Logf FatalLevel filename funcname formatted

/-- Panicf of src/log.go lines 471-484. -/
def SWLog.Panicf (logger : SWLog) (filename funcname formatted : String) :
    List Write × Outcome :=
  logger.Logf PanicLevel filename funcname formatted

/-- Result of Init: normal completion, the already-set-up early return
of lines 137-140 (which only emits a debug log), or the logrus.Fatalf
abort on an empty log file path at lines 151-153. Directory creation and
the rotating-writer construction are external effects whose failure also
aborts; the model takes their success path. -/
inductive InitOutcome
  | ok
  | alreadySetup
  | fatalEmptyPath
  deriving Repr, DecidableEq

/-- Init of src/log.go lines 136-209, as a state transformer. The
swloggerLevel argument is the value read from the global
SWLogger.LogLevel at line 203 when the console sink is constructed; when
the receiver is the global instance itself that read sees the LogLevel
just assigned at line 143, i.e. the level argument. Note line 167 gives
the file sink logger.LogLevel (= level) while line 203 gives the console
sink SWLogger.LogLevel, and line 204 installs the full Formatter on the
console sink. -/
def SWLog.Init (logger : SWLog) (swloggerLevel : Level) (logFile : String)
    (level : Level) (log2STD : Bool) : SWLog × InitOutcome :=
  if logger.isSetup then (logger, .alreadySetup)
  else
    let logger := { logger with LogLevel := level }
    let logger := if logFile ≠ "" then { logger with LogFile := logFile } else logger
    if logger.LogFile = "" then (logger, .fatalEmptyPath)
    else
      ({ logger with
          FileLoggerLevel := logger.LogLevel,
          skip := 2,
          IsLog2STD := log2STD,
          STDLoggerLevel := swloggerLevel,
          STDFormatterIsRaw := false,
          isSetup := true }, .ok)

/-- SetRawSTDLogging of src/log.go lines 211-218: records the raw flag
and installs the matching formatter on the console sink. -/
def SWLog.SetRawSTDLogging (logger : SWLog) (isRaw : Bool) : SWLog :=
  { logger with raw := isRaw, STDFormatterIsRaw := isRaw }

/-- The bytes the console sink renders for an entry: logrus invokes the
installed formatter, which is the raw STDFormatter or the full Formatter
according to which one SetRawSTDLogging or Init installed last. -/
def SWLog.consoleRender (logger : SWLog) (f : Formatter) (e : Entry) :
    Except String String :=
  if logger.STDFormatterIsRaw then STDFormatterFormat e else Formatter.Format f e

/-- The bytes the file sink renders for an entry: the file sink's
formatter is installed once at Init (line 169) and never replaced, so it
is always the full Formatter. -/
def SWLog.fileRender (_logger : SWLog) (f : Formatter) (e : Entry) :
    Except String String :=
  Formatter.Format f e

/-- SetLogLevel of src/log.go lines 514-521, acting on the global
instance state. -/
def SetLogLevel (st : SWLog) (level : Level) : SWLog :=
  let st := if st.IsLog2STD then { st with STDLoggerLevel := level } else st
  { st with FileLoggerLevel := level, LogLevel := level }

/-- GetLogLevel of src/log.go lines 524-527: reads back the file sink's
level. -/
def GetLogLevel (st : SWLog) : Level :=
  st.FileLoggerLevel

/-- A second SWLog instance distinct from the global SWLogger, at its Go
zero value (as a fresh SWLog value a consumer may construct). -/
def otherSWLog : SWLog :=
  { STDLoggerLevel := 0, FileLoggerLevel := 0, STDFormatterIsRaw := false,
    IsLog2STD := false, LogFile := "", LogLevel := 0, skip := 0,
    isSetup := false, raw := false }

theorem goSplitFuel_ne_nil (sep : List Char) (fuel : Nat) :
    ∀ (acc s : List Char), goSplitFuel sep fuel acc s ≠ [] := by
  induction fuel with
  | zero => intro acc s; cases s <;> simp [goSplitFuel]
  | succ n ih =>
    intro acc s
    cases s with
    | nil => simp [goSplitFuel]
    | cons c rest =>
      unfold goSplitFuel
      split
      · simp
      · exact ih (c :: acc) rest

theorem goSplit_ne_nil (s sep : String) (h : sep.data.isEmpty = false) :
    goSplit s sep ≠ [] := by
  unfold goSplit
  rw [h]
  simp only [Bool.false_eq_true, if_false, ne_eq, List.map_eq_nil_iff]
  exact goSplitFuel_ne_nil sep.data s.data.length [] s.data

theorem stdFormatterFormat_eq (e : Entry) :
    STDFormatterFormat e = Except.ok (e.Message ++ "\n") := by
  have h : goSplit "%msg%\n" "%msg%" = ["", "\n"] := by decide
  simp [STDFormatterFormat, goReplaceOnce, h, String.intercalate,
    String.intercalate.go]

/-- Exact characterization of the writes and control effect of Log on a
set-up logger whose sinks are in sync with its threshold and whose
threshold enables the level. -/
theorem SWLog.log_eq (st : SWLog) (level : Level) (filename funcname msg : String)
    (hsetup : st.isSetup = true)
    (hstd : st.STDLoggerLevel = st.LogLevel)
    (hfile : st.FileLoggerLevel = st.LogLevel)
    (hen : level ≤ st.LogLevel) :
    st.Log level filename funcname msg =
      if st.IsLog2STD then
        (if level = 0 then ([⟨.std, 0, msg⟩], .panicked)
         else if level = 1 then ([⟨.std, 1, msg⟩], .exited)
         else ([⟨.std, min level 5, msg⟩, ⟨.file, min level 5, msg⟩], .normal))
      else
        (if level = 0 then ([⟨.file, 0, msg⟩], .panicked)
         else if level = 1 then ([⟨.file, 1, msg⟩], .exited)
         else ([⟨.file, min level 5, msg⟩], .normal)) := by
  have h0 : st.isLevelEnabled level = true := by
    simp [SWLog.isLevelEnabled, ge_iff_le, hen]
  rcases level with _ | _ | _ | _ | _ | l
  · cases hecho : st.IsLog2STD <;>
      simp [SWLog.Log, h0, hsetup, hecho, logrusWrite, hstd, hfile]
  · cases hecho : st.IsLog2STD <;>
      simp [SWLog.Log, h0, hsetup, hecho, logrusWrite, hstd, hfile, hen]
  · cases hecho : st.IsLog2STD <;>
      simp [SWLog.Log, h0, hsetup, hecho, SWLog.stdFileWrites, logrusWrite,
        hstd, hfile, hen]
  · cases hecho : st.IsLog2STD <;>
      simp [SWLog.Log, h0, hsetup, hecho, SWLog.stdFileWrites, logrusWrite,
        hstd, hfile, hen]
  · cases hecho : st.IsLog2STD <;>
      simp [SWLog.Log, h0, hsetup, hecho, SWLog.stdFileWrites, logrusWrite,
        hstd, hfile, hen]
  · have h5 : (5 : Nat) ≤ st.LogLevel := le_trans (by omega) hen
    have hm : min (l + 5 + 1) 5 = 5 := by omega
    cases hecho : st.IsLog2STD <;>
      simp [SWLog.Log, h0, hsetup, hecho, SWLog.stdFileWrites, logrusWrite,
        hstd, hfile, h5, hm]

/-- C1 (amended): on an initialized logger whose sinks carry the
configured threshold and whose threshold enables the level, the console
sink receives a write iff the echo flag is true; the file sink receives
a write iff the echo flag is false or the severity is error or below in
priority (numeric level at least 2) — with echo enabled, a Panic- or
Fatal-severity call aborts inside the console sink (panic, resp. process
exit) before the file sink call is reached, so the file sink receives
nothing for those; a level matching none of panic/fatal/error/warn/info
is dispatched via the sinks' debug method. -/
theorem log_routing_amended (st : SWLog) (level : Level)
    (filename funcname msg : String)
    (hsetup : st.isSetup = true)
    (hstd : st.STDLoggerLevel = st.LogLevel)
    (hfile : st.FileLoggerLevel = st.LogLevel)
    (hen : level ≤ st.LogLevel) :
    ((∃ w ∈ (st.Log level filename funcname msg).1, w.sink = SinkId.std)
        ↔ st.IsLog2STD = true)
    ∧ ((∃ w ∈ (st.Log level filename funcname msg).1, w.sink = SinkId.file)
        ↔ (st.IsLog2STD = false ∨ 2 ≤ level))
    ∧ (5 ≤ level →
        ∀ w ∈ (st.Log level filename funcname msg).1, w.level = DebugLevel) := by
  rw [SWLog.log_eq st level filename funcname msg hsetup hstd hfile hen]
  cases hecho : st.IsLog2STD <;> rcases level with _ | _ | _ | _ | _ | l <;>
    simp [DebugLevel]

/-- An initialized logger state with echo enabled, threshold Debug and
both sinks at Debug, as the global instance holds after
Init("/tmp/test.log", DebugLevel, true). -/
def echoDebugSWLog : SWLog :=
  { STDLoggerLevel := 5, FileLoggerLevel := 5, STDFormatterIsRaw := false,
    IsLog2STD := true, LogFile := "/tmp/test.log", LogLevel := 5, skip := 2,
    isSetup := true, raw := false }

/-- The same initialized logger state with echo disabled. -/
def noEchoDebugSWLog : SWLog :=
  { echoDebugSWLog with IsLog2STD := false }

/-- C1 counterexample to the claim as stated: on an initialized logger
with echo enabled, threshold Debug and both sinks at Debug, a
Panic-severity call writes only to the console sink and panics there;
the file sink receives no data although the level is enabled. -/
theorem log_routing_counterexample :
    echoDebugSWLog.Log 0 "examples/x.go:1" "f" "boom"
      = ([⟨SinkId.std, 0, "boom"⟩], Outcome.panicked)
    ∧ ¬ (∃ w ∈ (echoDebugSWLog.Log 0 "examples/x.go:1" "f" "boom").1,
        w.sink = SinkId.file) := by
  decide

/-- C1 witness: a Warn-severity call on an initialized logger with echo
disabled and threshold Debug writes to the file sink and not to the
console sink. -/
theorem log_routing_amended_witness :
    ¬ (∃ w ∈ (noEchoDebugSWLog.Log 3 "examples/x.go:1" "f" "m").1,
        w.sink = SinkId.std)
    ∧ (∃ w ∈ (noEchoDebugSWLog.Log 3 "examples/x.go:1" "f" "m").1,
        w.sink = SinkId.file) := by
  have h := log_routing_amended noEchoDebugSWLog 3 "examples/x.go:1" "f" "m"
    (by decide) (by decide) (by decide) (by decide)
  exact ⟨fun hs => absurd (h.1.mp hs) (by decide), h.2.1.mpr (Or.inl (by decide))⟩

/-- C2: isLevelEnabled on a logger whose threshold and message level are
drawn from the enumeration Panic=0 .. Debug=5 returns true exactly when
the threshold's numeric value is at least the message level's numeric
value. -/
theorem isLevelEnabled_iff (st : SWLog) (level : Level)
    (ht : st.LogLevel ≤ 5) (hl : level ≤ 5) :
    st.isLevelEnabled level = true ↔ level ≤ st.LogLevel := by
  simp [SWLog.isLevelEnabled, ge_iff_le]

/-- C2 witness: with threshold Info, Warn is enabled; Debug is not
(evaluated directly on the same instance). -/
theorem isLevelEnabled_iff_witness :
    ({ otherSWLog with LogLevel := 4 } : SWLog).isLevelEnabled 3 = true
    ∧ ({ otherSWLog with LogLevel := 4 } : SWLog).isLevelEnabled 5 = false := by
  constructor
  · exact (isLevelEnabled_iff { otherSWLog with LogLevel := 4 } 3
      (by decide) (by decide)).mpr (by decide)
  · decide

/-- C3: a second Init call on an instance whose isSetup flag is already
true returns the state unchanged: log-file path, threshold, sink levels,
echo flag, skip count and all other fields keep the values of the first
Init call. -/
theorem init_idempotent (logger : SWLog) (swloggerLevel : Level)
    (logFile : String) (level : Level) (log2STD : Bool)
    (h : logger.isSetup = true) :
    logger.Init swloggerLevel logFile level log2STD
      = (logger, InitOutcome.alreadySetup) := by
  simp [SWLog.Init, h]

/-- C3 witness: after a first Init of the global instance with path
"/tmp/test.log", level Debug and echo on, a second Init with entirely
different arguments returns the first state unchanged. -/
theorem init_idempotent_witness :
    (SWLogger.Init 5 "/tmp/test.log" 5 true).1.Init 2 "/var/other.log" 2 false
      = ((SWLogger.Init 5 "/tmp/test.log" 5 true).1, InitOutcome.alreadySetup) :=
  init_idempotent (SWLogger.Init 5 "/tmp/test.log" 5 true).1 2 "/var/other.log"
    2 false (by decide)

/-- C4: for the record of the example test (date rendering "2021-03-09",
StampMilli rendering "Mar  9 10:16:18.000" whose final token is
"10:16:18.000", level Debug, message "test debug", caller function
"ExampleSWLog_Debug", site "examples/example_log_test.go:23"), Format
with empty template and timestamp configuration renders exactly the
expected line and no error. -/
theorem format_round_trip :
    Formatter.Format
      { TimestampFormat := "", LogFormat := "",
        FileName := "examples/example_log_test.go:23",
        FuncName := "ExampleSWLog_Debug" }
      { TimeRFC3339 := "2021-03-09T10:16:18Z",
        TimeStamped := "Mar  9 10:16:18.000", level := 5,
        Message := "test debug", Data := [] }
      = Except.ok
          "2021-03-09 10:16:18.000|DEBUG  |ExampleSWLog_Debug(examples/example_log_test.go:23)|test debug\n" := by
  rfl

/-- C5: evaluation of the code at the failing input. Init on a fresh
SWLog instance distinct from the global singleton, with level Debug and
echo on, while the global SWLogger.LogLevel is at its zero value Panic:
line 167 gives the file sink the configured level Debug, but line 203
gives the console sink the global's level Panic, so the console sink
does not carry the level argument, contradicting the claim for
non-global instances. -/
theorem init_console_level_from_global :
    (otherSWLog.Init 0 "/tmp/x.log" DebugLevel true).1.FileLoggerLevel = DebugLevel
    ∧ (otherSWLog.Init 0 "/tmp/x.log" DebugLevel true).1.STDLoggerLevel = PanicLevel
    ∧ (otherSWLog.Init 0 "/tmp/x.log" DebugLevel true).1.STDLoggerLevel
        ≠ DebugLevel := by
  decide

/-- C6: on an instance whose isSetup flag is false, every logging entry
point — Log, Logf, each severity wrapper and each format-string wrapper —
hits the logrus.Fatal pre-setup check: the process aborts and no write
reaches either sink. -/
theorem log_before_setup_fatal (st : SWLog) (h : st.isSetup = false) :
    (∀ level filename funcname msg,
        st.Log level filename funcname msg = ([], Outcome.setupFatal))
    ∧ (∀ level filename funcname formatted,
        st.Logf level filename funcname formatted = ([], Outcome.setupFatal))
    ∧ (∀ filename funcname msg,
        st.Debug filename funcname msg = ([], Outcome.setupFatal))
    ∧ (∀ filename funcname msg,
        st.Info filename funcname msg = ([], Outcome.setupFatal))
    ∧ (∀ filename funcname msg,
        st.Warn filename funcname msg = ([], Outcome.setupFatal))
    ∧ (∀ filename funcname msg,
        st.Error filename funcname msg = ([], Outcome.setupFatal))
    ∧ (∀ filename funcname msg,
        st.Fatal filename funcname msg = ([], Outcome.setupFatal))
    ∧ (∀ filename funcname msg,
        st.Panic filename funcname msg = ([], Outcome.setupFatal))
    ∧ (∀ filename funcname formatted,
        st.Debugf filename funcname formatted = ([], Outcome.setupFatal))
    ∧ (∀ filename funcname formatted,
        st.Infof filename funcname formatted = ([], Outcome.setupFatal))
    ∧ (∀ filename funcname formatted,
        st.Warnf filename funcname formatted = ([], Outcome.setupFatal))
    ∧ (∀ filename funcname formatted,
        st.Errorf filename funcname formatted = ([], Outcome.setupFatal))
    ∧ (∀ filename funcname formatted,
        st.Fatalf filename funcname formatted = ([], Outcome.setupFatal))
    ∧ (∀ filename funcname formatted,
        st.Panicf filename funcname formatted = ([], Outcome.setupFatal)) := by
  simp [SWLog.Log, SWLog.Logf, SWLog.Debug, SWLog.Info, SWLog.Warn,
    SWLog.Error, SWLog.Fatal, SWLog.Panic, SWLog.Debugf, SWLog.Infof,
    SWLog.Warnf, SWLog.Errorf, SWLog.Fatalf, SWLog.Panicf, h]

/-- C6 witness: a Debug call on the never-initialized global SWLogger
aborts with the pre-setup fatal and dispatches nothing. -/
theorem log_before_setup_fatal_witness :
    SWLogger.Debug "examples/x.go:1" "f" "m" = ([], Outcome.setupFatal) :=
  (log_before_setup_fatal SWLogger (by decide)).2.2.1 "examples/x.go:1" "f" "m"

/-- C7: after SetRawSTDLogging(true), the console sink renders any entry
as exactly its message followed by a newline, for every severity level,
caller metadata and template configuration; and after SetRawSTDLogging
with either argument, the file sink still renders with the full template
formatter Format. -/
theorem raw_mode_console_only :
    (∀ (st : SWLog) (f : Formatter) (e : Entry),
        (st.SetRawSTDLogging true).consoleRender f e
          = Except.ok (e.Message ++ "\n"))
    ∧ (∀ (st : SWLog) (isRaw : Bool) (f : Formatter) (e : Entry),
        (st.SetRawSTDLogging isRaw).fileRender f e = f.Format e)
    ∧ (∀ (st : SWLog), (st.SetRawSTDLogging true).raw = true) := by
  refine ⟨fun st f e => ?_, fun st isRaw f e => rfl, fun st => rfl⟩
  simp [SWLog.SetRawSTDLogging, SWLog.consoleRender, stdFormatterFormat_eq]

/-- C8: for each of the six severity levels Panic..Debug, the token
substituted for the lvl placeholder is the uppercased logrus level name
right-padded with spaces, and is exactly 7 characters wide. -/
theorem level_token_width (level : Level) (h : level ≤ 5) :
    (padLevel (goToUpper (logrusLevelString level))).length = 7
    ∧ padLevel (goToUpper (logrusLevelString level))
        = goToUpper (logrusLevelString level)
          ++ String.mk (List.replicate
              (7 - (goToUpper (logrusLevelString level)).length) ' ') := by
  interval_cases level <;> exact ⟨by decide, by decide⟩

/-- C8 witness: the Info token is "INFO   ", 7 characters wide. -/
theorem level_token_width_witness :
    (padLevel (goToUpper (logrusLevelString 4))).length = 7
    ∧ padLevel (goToUpper (logrusLevelString 4)) = "INFO   " :=
  ⟨(level_token_width 4 (by decide)).1, by decide⟩

/-- C9: on an initialized logger state, SetLogLevel followed by
GetLogLevel reads back the level just set; SetLogLevel unconditionally
updates the file sink's level and the recorded LogLevel, and updates the
console sink's level exactly when IsLog2STD is true. -/
theorem set_get_log_level (st : SWLog) (level : Level) (h : st.isSetup = true) :
    GetLogLevel (SetLogLevel st level) = level
    ∧ (SetLogLevel st level).FileLoggerLevel = level
    ∧ (SetLogLevel st level).LogLevel = level
    ∧ (SetLogLevel st level).STDLoggerLevel
        = (if st.IsLog2STD then level else st.STDLoggerLevel) := by
  cases hecho : st.IsLog2STD <;> simp [GetLogLevel, SetLogLevel, hecho]

/-- C9 witness: on the initialized echo-enabled state, setting level
Info reads back Info and updates both sinks. -/
theorem set_get_log_level_witness :
    GetLogLevel (SetLogLevel echoDebugSWLog 4) = 4
    ∧ (SetLogLevel echoDebugSWLog 4).STDLoggerLevel = 4 := by
  have h := set_get_log_level echoDebugSWLog 4 (by decide)
  exact ⟨h.1, by rw [h.2.2.2]; decide⟩

/-- C10: Format returns a rendered byte string and no error for every
formatter state and every entry whose RFC3339 time rendering splits on
"T" into exactly two parts (which holds of the rendering of any time,
since RFC3339 output contains exactly one "T"); the second failure
branch is unreachable unconditionally, because splitting any string
yields at least one piece. -/
theorem format_total (f : Formatter) (e : Entry)
    (h : (goSplit e.TimeRFC3339 "T").length = 2) :
    ∃ bs, f.Format e = Except.ok bs := by
  have h1 : goSplit e.TimeStamped " " ≠ [] := goSplit_ne_nil _ _ (by decide)
  have h2 : ¬ (goSplit e.TimeStamped " ").length < 1 := by
    cases hs : goSplit e.TimeStamped " " with
    | nil => exact absurd hs h1
    | cons a l => simp
  simp only [Formatter.Format, h, h2]
  simp

/-- C10 witness: Format succeeds on the example-test record. -/
theorem format_total_witness :
    ∃ bs,
      Formatter.Format
        { TimestampFormat := "", LogFormat := "",
          FileName := "examples/example_log_test.go:23",
          FuncName := "ExampleSWLog_Debug" }
        { TimeRFC3339 := "2021-03-09T10:16:18Z",
          TimeStamped := "Mar  9 10:16:18.000", level := 5,
          Message := "test debug", Data := [] }
        = Except.ok bs :=
  format_total _ _ (by decide)
